import Mathlib

/-!
# AxiSEM3D: the bubble-shaped volumetric heterogeneity

A shallow embedding of `Volumetric3D_bubble::initialize` and
`Volumetric3D_bubble::get3dProperties`
(`SOLVER/src/3d_model/3d_volumetric/simple_shapes/Volumetric3D_bubble.cpp`), and
of the inline accessors of `Element` (`SOLVER/src/core/element/Element.h`).

The C++ `double` is embedded as an arbitrary linearly ordered field `α`, so the
definitions run on `ℚ` and the theorems about the Gaussian are stated on `ℝ`
with the real `sqrt`, `log` and `exp`. Rounding, infinities and NaN are outside
the model.
-/

namespace Volumetric3D_bubble

/-- The enumeration `ReferenceTypes` as it is used by `initialize`. -/
inductive ReferenceTypes where
  | Absolute
  | Reference1D
  | ReferenceDiff
  | Reference3D
  deriving DecidableEq, Repr

/-- The data members of a `Volumetric3D_bubble` object. -/
structure Bubble (α : Type) where
  mRadius : α
  mDepth : α
  mLat : α
  mLon : α
  mHWHM : α
  mMax : α
  mReferenceType : ReferenceTypes
  mChangeVp : Bool
  mChangeVs : Bool
  mChangeRho : Bool
  deriving DecidableEq, Repr

/-- The message of the `std::runtime_error` thrown by `initialize`. -/
def notEnoughParameters : String :=
  "Volumetric3D_bubble::initialize || Not enough parameters to initialize a Volumetric3D_bubble object."

section Init

variable {α : Type} [LinearOrderedField α]

/-- Lines 25-32 of `initialize`: the reference type selected by `params[6]`. -/
def referenceTypeOf (c : α) : ReferenceTypes :=
  if c < 0.5 then ReferenceTypes.Absolute
  else if c < 1.5 then ReferenceTypes.Reference1D
  else if c < 2.5 then ReferenceTypes.ReferenceDiff
  else ReferenceTypes.Reference3D

/-- Lines 34-41 of `initialize`: the `try` block reads `params.at(7)`,
`params.at(8)`, `params.at(9)` in turn; the first index that is out of range
throws `std::out_of_range`, which the empty `catch` swallows, leaving the
assignments made so far in place. `tinyDouble` is a constant of a header that
is not part of the sources at hand and is a parameter. -/
def readFlags (tinyDouble : α) (s : Bubble α) (params : List α) : Bubble α :=
  match params[7]? with
  | none => s
  | some v7 =>
    let s1 := { s with mChangeVp := decide (v7 > tinyDouble) }
    match params[8]? with
    | none => s1
    | some v8 =>
      let s2 := { s1 with mChangeVs := decide (v8 > tinyDouble) }
      match params[9]? with
      | none => s2
      | some v9 => { s2 with mChangeRho := decide (v9 > tinyDouble) }

/-- The method `Volumetric3D_bubble::initialize`, as a function from the object
before the call and the parameters to either the thrown error or the object
after the call. -/
def initializeBubble (tinyDouble : α) (s : Bubble α) (params : List α) :
    Except String (Bubble α) :=
  if h : params.length < 7 then
    Except.error notEnoughParameters
  else
    -- initialize location
    let s := { s with mDepth := params[0] * 1e3 }
    let s := { s with mLat := params[1] }
    let s := { s with mLon := params[2] }
    -- initialize Gaussian parameters
    let s := { s with mRadius := params[3] * 1e3 }
    let s := { s with mHWHM := params[4] * 1e3 }
    let s := { s with mMax := params[5] }
    -- initialize reference type
    let s := { s with mReferenceType := referenceTypeOf params[6] }
    Except.ok (readFlags tinyDouble s params)

/-- The method `Volumetric3D_bubble::initialize` statement by statement, as a
program on the object that may throw: running it from an object gives the
exception, if one was thrown, together with the object as the call leaves it.
`initializeBubble` is the same method seen as a function of the object. -/
def initializeM (tinyDouble : α) (params : List α) :
    ExceptT String (StateM (Bubble α)) Unit :=
  if h : params.length < 7 then
    throw notEnoughParameters
  else do
    -- initialize location
    modify fun s => { s with mDepth := params[0] * 1e3 }
    modify fun s => { s with mLat := params[1] }
    modify fun s => { s with mLon := params[2] }
    -- initialize Gaussian parameters
    modify fun s => { s with mRadius := params[3] * 1e3 }
    modify fun s => { s with mHWHM := params[4] * 1e3 }
    modify fun s => { s with mMax := params[5] }
    -- initialize reference type
    modify fun s => { s with mReferenceType := referenceTypeOf params[6] }
    modify fun s => readFlags tinyDouble s params

/-- Modelled from the spec: the object before `initialize` is called. The class
declaration (`Volumetric3D_bubble.h`, with the default member initialisers) is
not part of the sources at hand; the spec says that "each flag defaults to on"
and that omitted flags "retain their pre-initialization default of true". The
other members have no value before `initialize` and are taken from `uninit`. -/
def fresh (uninit : Bubble α) : Bubble α :=
  { uninit with mChangeVp := true, mChangeVs := true, mChangeRho := true }

end Init

section Properties

variable {α : Type} [LinearOrderedField α]

/-- The Eigen type `RDCol3`: a column of three doubles. -/
structure RDCol3 (α : Type) where
  c0 : α
  c1 : α
  c2 : α
  deriving DecidableEq, Repr

/-- The functions of `XMath` that `get3dProperties` calls. `XMath.h` is not part
of the sources at hand, so they are parameters of the embedding. -/
structure XMath (α : Type) where
  getROuter : α
  lat2Theta : α → α → α
  lon2Phi : α → α
  toCartesian : RDCol3 α → RDCol3 α

/-- Componentwise difference of two columns (`xyzBubble - xyzTarget`). -/
def RDCol3.sub (a b : RDCol3 α) : RDCol3 α :=
  ⟨a.c0 - b.c0, a.c1 - b.c1, a.c2 - b.c2⟩

/-- Eigen `norm()`: the square root of the sum of the squared coefficients. The
square root of `<cmath>` is a parameter. -/
def RDCol3.norm (sqrt : α → α) (v : RDCol3 α) : α :=
  sqrt (v.c0 * v.c0 + v.c1 * v.c1 + v.c2 * v.c2)

/-- The five output arguments of `get3dProperties` together with the returned
`bool`. -/
@[ext]
structure Perturbation (α : Type) where
  dvpv : α
  dvph : α
  dvsv : α
  dvsh : α
  drho : α
  inRange : Bool
  deriving DecidableEq, Repr

/-- Lines 49-52 of `get3dProperties`: the bubble centre in Cartesian
coordinates. -/
def xyzBubble (X : XMath α) (s : Bubble α) : RDCol3 α :=
  X.toCartesian ⟨X.getROuter - s.mDepth, X.lat2Theta s.mLat s.mDepth, X.lon2Phi s.mLon⟩

/-- Lines 48-57 of `get3dProperties`: the distance between the bubble centre and
the target point. -/
def distance (X : XMath α) (sqrt : α → α) (s : Bubble α) (r theta phi : α) : α :=
  let xyzTarget := X.toCartesian ⟨r, theta, phi⟩
  ((xyzBubble X s).sub xyzTarget).norm sqrt

/-- Lines 63-64 of `get3dProperties`: "treat as center if inside bubble". -/
def clampedDistance (X : XMath α) (sqrt : α → α) (s : Bubble α) (r theta phi : α) : α :=
  let distance := distance X sqrt s r theta phi - s.mRadius
  if distance < 0 then 0 else distance

/-- Lines 70-71 of `get3dProperties`: "compute Gaussian" at the clamped distance
`distance`. The functions `sqrt`, `log` and `exp` of `<cmath>` are
parameters. -/
def gaussian (sqrt log exp : α → α) (s : Bubble α) (distance : α) : α :=
  let stddev := s.mHWHM / sqrt (2 * log 2)
  s.mMax * exp (-distance * distance / (stddev * stddev * 2))

/-- Line 70 of `get3dProperties`: the standard deviation, as `gaussian` computes
it. -/
def stddev (sqrt log : α → α) (s : Bubble α) : α :=
  s.mHWHM / sqrt (2 * log 2)

set_option linter.unusedVariables false in
/-- The method `Volumetric3D_bubble::get3dProperties`. The output arguments are
all assigned on line 60 before they are read or the method returns, so their
values on entry do not matter and they are results only. -/
def get3dProperties (X : XMath α) (sqrt log exp : α → α) (s : Bubble α)
    (r theta phi rElemCenter : α) : Perturbation α :=
  -- find the distance between bubble center and target point
  -- treat as center if inside bubble
  let distance := clampedDistance X sqrt s r theta phi
  -- zero results
  let out : Perturbation α := ⟨0, 0, 0, 0, 0, false⟩
  -- outside range
  if distance > 4 * s.mHWHM then out
  else
    -- compute Gaussian
    let gaussian := gaussian sqrt log exp s distance
    -- set perturbations
    let out := if s.mChangeVp then { out with dvpv := gaussian, dvph := gaussian } else out
    let out := if s.mChangeVs then { out with dvsv := gaussian, dvsh := gaussian } else out
    let out := if s.mChangeRho then { out with drho := gaussian } else out
    { out with inRange := true }

/-- The five `double &` output arguments of `get3dProperties`, as the caller's
variables they refer to. -/
@[ext]
structure Outputs (α : Type) where
  dvpv : α
  dvph : α
  dvsv : α
  dvsh : α
  drho : α
  deriving DecidableEq, Repr

set_option linter.unusedVariables false in
/-- The method `Volumetric3D_bubble::get3dProperties` statement by statement, as
a program on the pair of the object and the caller's five output variables that
returns the `bool`: members are read from the object where the source reads
them, the assignments of lines 60 and 74-76 write the output variables, and
`return false` on line 67 leaves the method early. `get3dProperties` is the same
method seen as a function of the object and the query point. -/
def get3dPropertiesM (X : XMath α) (sqrt log exp : α → α)
    (r theta phi rElemCenter : α) : StateM (Bubble α × Outputs α) Bool := do
  -- find the distance between bubble center and target point
  let rtpBubble : RDCol3 α :=
    ⟨X.getROuter - (← get).1.mDepth, X.lat2Theta (← get).1.mLat (← get).1.mDepth,
      X.lon2Phi (← get).1.mLon⟩
  let xyzBubble := X.toCartesian rtpBubble
  let rtpTarget : RDCol3 α := ⟨r, theta, phi⟩
  let xyzTarget := X.toCartesian rtpTarget
  let mut distance := (xyzBubble.sub xyzTarget).norm sqrt
  -- zero results
  modify fun st => (st.1, ⟨0, 0, 0, 0, 0⟩)
  -- treat as center if inside bubble
  distance := distance - (← get).1.mRadius
  if distance < 0 then distance := 0
  -- outside range
  if distance > 4 * (← get).1.mHWHM then return false
  -- compute Gaussian
  let stddev := (← get).1.mHWHM / sqrt (2 * log 2)
  let gaussian := (← get).1.mMax * exp (-distance * distance / (stddev * stddev * 2))
  -- set perturbations
  if (← get).1.mChangeVp then
    modify fun st => (st.1, { st.2 with dvpv := gaussian, dvph := gaussian })
  if (← get).1.mChangeVs then
    modify fun st => (st.1, { st.2 with dvsv := gaussian, dvsh := gaussian })
  if (← get).1.mChangeRho then
    modify fun st => (st.1, { st.2 with drho := gaussian })
  return true

/-- Every affected quantity of `out` (one whose flag is set in `s`) satisfies
`P`. -/
def OnAffected (s : Bubble α) (out : Perturbation α) (P : α → Prop) : Prop :=
  (s.mChangeVp = true → P out.dvpv ∧ P out.dvph) ∧
  (s.mChangeVs = true → P out.dvsv ∧ P out.dvsh) ∧
  (s.mChangeRho = true → P out.drho)

/-- Each of the five perturbations of `a` is at most that of `b`. -/
def Perturbation.AllLe (a b : Perturbation α) : Prop :=
  a.dvpv ≤ b.dvpv ∧ a.dvph ≤ b.dvph ∧ a.dvsv ≤ b.dvsv ∧ a.dvsh ≤ b.dvsh ∧ a.drho ≤ b.drho

/-- Each of the five perturbations of `out` satisfies `P`. -/
def Perturbation.All (out : Perturbation α) (P : α → Prop) : Prop :=
  P out.dvpv ∧ P out.dvph ∧ P out.dvsv ∧ P out.dvsh ∧ P out.drho

/-- Modelled from the spec: the `XMath` collaborator ("converts between
spherical (radius, colatitude, azimuth) and Cartesian coordinates; converts
geographic latitude/depth to colatitude; supplies the reference outer radius")
for a spherical Earth of radius 6371 km, with angles in radians and latitude and
longitude in degrees. `XMath.cpp` is not part of the sources at hand. The
theorems hold for every `XMath`; this one serves the concrete examples. The
trigonometric functions and pi are parameters. -/
def sphericalXMath (sin cos : α → α) (pi : α) : XMath α where
  getROuter := 6371000
  lat2Theta := fun lat _ => (90 - lat) * pi / 180
  lon2Phi := fun lon => lon * pi / 180
  toCartesian := fun rtp =>
    ⟨rtp.c0 * sin rtp.c1 * cos rtp.c2, rtp.c0 * sin rtp.c1 * sin rtp.c2, rtp.c0 * cos rtp.c1⟩

/-- A bubble under the north pole: depth `depth`, core radius `radius`, half
width `hwhm`, peak `peak`, all three flags set. -/
def polarBubble (depth radius hwhm peak : α) : Bubble α :=
  ⟨radius, depth, 90, 0, hwhm, peak, ReferenceTypes.Absolute, true, true, true⟩

end Properties

end Volumetric3D_bubble

/-- The data members of the class `Element` (`SOLVER/src/core/element/Element.h`).
`Point`, `Gradient` and `PRT` are only declared there, so the pointer types are
parameters, and so is the constant `nPntElem` of a header that is not part of
the sources at hand. A C++ `int` is embedded as an integer; the methods below
store and return it and do no arithmetic on it. -/
structure Element (PointPtr GradientPtr PRTPtr : Type) (nPntElem : Nat) where
  mMaxNu : Int
  mMaxNr : Int
  mPoints : Fin nPntElem → PointPtr
  mGradient : GradientPtr
  mPRT : PRTPtr
  mHasPRT : Bool
  mDomainTag : Int

namespace Element

variable {PointPtr GradientPtr PRTPtr : Type} {nPntElem : Nat}

/-- The method `getPoint`: `mPoints[index]`. `std::array::operator[]` is defined
for `0 <= index < nPntElem` only; outside that range there is no result. -/
def getPoint (e : Element PointPtr GradientPtr PRTPtr nPntElem) (index : Int) :
    Option PointPtr :=
  if h : 0 ≤ index ∧ index < nPntElem then
    some (e.mPoints ⟨index.toNat, by omega⟩)
  else none

/-- The method `getMaxNr`. -/
def getMaxNr (e : Element PointPtr GradientPtr PRTPtr nPntElem) : Int :=
  e.mMaxNr

/-- The method `setDomainTag`: `mDomainTag = tag`. -/
def setDomainTag (e : Element PointPtr GradientPtr PRTPtr nPntElem) (tag : Int) :
    Element PointPtr GradientPtr PRTPtr nPntElem :=
  { e with mDomainTag := tag }

/-- The method `getDomainTag`. -/
def getDomainTag (e : Element PointPtr GradientPtr PRTPtr nPntElem) : Int :=
  e.mDomainTag

end Element

namespace Volumetric3D_bubble

/-! ## `initialize` -/

section InitTheorems

variable {α : Type} [LinearOrderedField α]

theorem initializeBubble_ok (tinyDouble : α) (s : Bubble α) (params : List α)
    (h : 7 ≤ params.length) :
    initializeBubble tinyDouble s params =
      Except.ok (readFlags tinyDouble
        { s with
          mDepth := params[0] * 1e3, mLat := params[1], mLon := params[2],
          mRadius := params[3] * 1e3, mHWHM := params[4] * 1e3, mMax := params[5],
          mReferenceType := referenceTypeOf params[6] } params) := by
  unfold initializeBubble
  rw [dif_neg (by omega)]

/-- The `try` block of `initialize` writes the three flags only. -/
theorem readFlags_fields (tinyDouble : α) (s : Bubble α) (params : List α) :
    (readFlags tinyDouble s params).mDepth = s.mDepth ∧
    (readFlags tinyDouble s params).mLat = s.mLat ∧
    (readFlags tinyDouble s params).mLon = s.mLon ∧
    (readFlags tinyDouble s params).mRadius = s.mRadius ∧
    (readFlags tinyDouble s params).mHWHM = s.mHWHM ∧
    (readFlags tinyDouble s params).mMax = s.mMax ∧
    (readFlags tinyDouble s params).mReferenceType = s.mReferenceType := by
  unfold readFlags
  split
  · simp
  · split
    · simp
    · split <;> simp

/-- The Vp flag after the `try` block. -/
theorem readFlags_vp (tinyDouble : α) (s : Bubble α) (params : List α) :
    (∀ hk : 7 < params.length,
      ((readFlags tinyDouble s params).mChangeVp = true ↔ params[7] > tinyDouble)) ∧
    (params.length ≤ 7 → (readFlags tinyDouble s params).mChangeVp = s.mChangeVp) := by
  unfold readFlags
  constructor
  · intro hk
    rw [List.getElem?_eq_getElem hk]
    dsimp only
    split
    · simp
    · split <;> simp
  · intro hk
    rw [List.getElem?_eq_none hk]

/-- The Vs flag after the `try` block. -/
theorem readFlags_vs (tinyDouble : α) (s : Bubble α) (params : List α) :
    (∀ hk : 8 < params.length,
      ((readFlags tinyDouble s params).mChangeVs = true ↔ params[8] > tinyDouble)) ∧
    (params.length ≤ 8 → (readFlags tinyDouble s params).mChangeVs = s.mChangeVs) := by
  unfold readFlags
  constructor
  · intro hk
    rw [List.getElem?_eq_getElem (show 7 < params.length by omega),
      List.getElem?_eq_getElem hk]
    dsimp only
    split <;> simp
  · intro hk
    rcases Nat.lt_or_ge 7 params.length with h7 | h7
    · rw [List.getElem?_eq_getElem h7, List.getElem?_eq_none hk]
    · rw [List.getElem?_eq_none h7]

/-- The density flag after the `try` block. -/
theorem readFlags_rho (tinyDouble : α) (s : Bubble α) (params : List α) :
    (∀ hk : 9 < params.length,
      ((readFlags tinyDouble s params).mChangeRho = true ↔ params[9] > tinyDouble)) ∧
    (params.length ≤ 9 → (readFlags tinyDouble s params).mChangeRho = s.mChangeRho) := by
  unfold readFlags
  constructor
  · intro hk
    rw [List.getElem?_eq_getElem (show 7 < params.length by omega),
      List.getElem?_eq_getElem (show 8 < params.length by omega),
      List.getElem?_eq_getElem hk]
    simp
  · intro hk
    rcases Nat.lt_or_ge 7 params.length with h7 | h7
    · rw [List.getElem?_eq_getElem h7]
      rcases Nat.lt_or_ge 8 params.length with h8 | h8
      · rw [List.getElem?_eq_getElem h8, List.getElem?_eq_none hk]
      · rw [List.getElem?_eq_none h8]
    · rw [List.getElem?_eq_none h7]

/-- The four buckets of the reference-type selector. -/
theorem referenceTypeOf_iff (c : α) :
    (referenceTypeOf c = ReferenceTypes.Absolute ↔ c < 0.5) ∧
    (referenceTypeOf c = ReferenceTypes.Reference1D ↔ 0.5 ≤ c ∧ c < 1.5) ∧
    (referenceTypeOf c = ReferenceTypes.ReferenceDiff ↔ 1.5 ≤ c ∧ c < 2.5) ∧
    (referenceTypeOf c = ReferenceTypes.Reference3D ↔ 2.5 ≤ c) := by
  have h1 : (0.5 : α) < 1.5 := by norm_num
  have h2 : (1.5 : α) < 2.5 := by norm_num
  unfold referenceTypeOf
  by_cases a1 : c < 0.5
  · have a2 : c < 1.5 := lt_trans a1 h1
    have a3 : c < 2.5 := lt_trans a2 h2
    simp [a1, not_le.mpr a1, not_le.mpr a2, not_le.mpr a3]
  · by_cases a2 : c < 1.5
    · have a3 : c < 2.5 := lt_trans a2 h2
      simp [a1, a2, not_lt.mp a1, not_le.mpr a2, not_le.mpr a3]
    · by_cases a3 : c < 2.5
      · simp [a1, a2, a3, not_lt.mp a2, not_le.mpr a3]
      · simp [a1, a2, a3, not_lt.mp a3]

/-- C1: `initialize` throws its configuration error exactly when fewer than 7
parameters are given, and returns normally exactly when there are at least 7,
whatever their values and whatever the object held before. -/
theorem initialize_throws_iff (tinyDouble : α) (s : Bubble α) (params : List α) :
    (initializeBubble tinyDouble s params = Except.error notEnoughParameters ↔
      params.length < 7) ∧
    ((∃ s', initializeBubble tinyDouble s params = Except.ok s') ↔
      7 ≤ params.length) := by
  by_cases h : params.length < 7
  · have e : initializeBubble tinyDouble s params = Except.error notEnoughParameters := by
      unfold initializeBubble
      rw [dif_pos h]
    simp [e, h]
  · have h7 : 7 ≤ params.length := by omega
    rw [initializeBubble_ok tinyDouble s params h7]
    simp [h, h7]

/-- C2: with at least 7 parameters `initialize` returns normally and stores
depth = p[0]*1000, latitude = p[1], longitude = p[2], radius = p[3]*1000,
HWHM = p[4]*1000 and peak magnitude = p[5]. -/
theorem initialize_stores_fields (tinyDouble : α) (s : Bubble α) (params : List α)
    (h : 7 ≤ params.length) :
    ∃ s', initializeBubble tinyDouble s params = Except.ok s' ∧
      s'.mDepth = params[0] * 1000 ∧ s'.mLat = params[1] ∧ s'.mLon = params[2] ∧
      s'.mRadius = params[3] * 1000 ∧ s'.mHWHM = params[4] * 1000 ∧
      s'.mMax = params[5] := by
  refine ⟨_, initializeBubble_ok tinyDouble s params h, ?_⟩
  obtain ⟨a, b, c, d, e, f, -⟩ := readFlags_fields tinyDouble
    { s with
      mDepth := params[0] * 1e3, mLat := params[1], mLon := params[2],
      mRadius := params[3] * 1e3, mHWHM := params[4] * 1e3, mMax := params[5],
      mReferenceType := referenceTypeOf params[6] } params
  rw [a, b, c, d, e, f]
  norm_num

/-- C3: with at least 7 parameters `initialize` returns normally and the stored
reference type is Absolute iff p[6] < 0.5, Reference1D iff 0.5 <= p[6] < 1.5,
ReferenceDiff iff 1.5 <= p[6] < 2.5 and Reference3D iff 2.5 <= p[6]. -/
theorem initialize_reference_type (tinyDouble : α) (s : Bubble α) (params : List α)
    (h : 7 ≤ params.length) :
    ∃ s', initializeBubble tinyDouble s params = Except.ok s' ∧
      (s'.mReferenceType = ReferenceTypes.Absolute ↔ params[6] < 0.5) ∧
      (s'.mReferenceType = ReferenceTypes.Reference1D ↔ (0.5 : α) ≤ params[6] ∧ params[6] < 1.5) ∧
      (s'.mReferenceType = ReferenceTypes.ReferenceDiff ↔ (1.5 : α) ≤ params[6] ∧ params[6] < 2.5) ∧
      (s'.mReferenceType = ReferenceTypes.Reference3D ↔ (2.5 : α) ≤ params[6]) := by
  refine ⟨_, initializeBubble_ok tinyDouble s params h, ?_⟩
  rw [(readFlags_fields tinyDouble _ params).2.2.2.2.2.2]
  exact referenceTypeOf_iff params[6]

/-- C4: with n >= 7 parameters `initialize` returns normally, and for each of the
three flags (Vp at index 7, Vs at 8, density at 9): if the index is below n the
flag is true exactly when the parameter there is greater than `tinyDouble`, and
otherwise the flag keeps the value it had before the call. -/
theorem initialize_flags (tinyDouble : α) (s : Bubble α) (params : List α)
    (h : 7 ≤ params.length) :
    ∃ s', initializeBubble tinyDouble s params = Except.ok s' ∧
      (∀ hk : 7 < params.length, (s'.mChangeVp = true ↔ params[7] > tinyDouble)) ∧
      (params.length ≤ 7 → s'.mChangeVp = s.mChangeVp) ∧
      (∀ hk : 8 < params.length, (s'.mChangeVs = true ↔ params[8] > tinyDouble)) ∧
      (params.length ≤ 8 → s'.mChangeVs = s.mChangeVs) ∧
      (∀ hk : 9 < params.length, (s'.mChangeRho = true ↔ params[9] > tinyDouble)) ∧
      (params.length ≤ 9 → s'.mChangeRho = s.mChangeRho) := by
  refine ⟨_, initializeBubble_ok tinyDouble s params h, ?_⟩
  obtain ⟨v1, v2⟩ := readFlags_vp tinyDouble
    { s with
      mDepth := params[0] * 1e3, mLat := params[1], mLon := params[2],
      mRadius := params[3] * 1e3, mHWHM := params[4] * 1e3, mMax := params[5],
      mReferenceType := referenceTypeOf params[6] } params
  obtain ⟨w1, w2⟩ := readFlags_vs tinyDouble
    { s with
      mDepth := params[0] * 1e3, mLat := params[1], mLon := params[2],
      mRadius := params[3] * 1e3, mHWHM := params[4] * 1e3, mMax := params[5],
      mReferenceType := referenceTypeOf params[6] } params
  obtain ⟨r1, r2⟩ := readFlags_rho tinyDouble
    { s with
      mDepth := params[0] * 1e3, mLat := params[1], mLon := params[2],
      mRadius := params[3] * 1e3, mHWHM := params[4] * 1e3, mMax := params[5],
      mReferenceType := referenceTypeOf params[6] } params
  exact ⟨v1, v2, w1, w2, r1, r2⟩

/-- C5: on an object that has not been initialised before, every sequence of
exactly 7 parameters initialises with the three flags true, and every sequence
of exactly 8 parameters whose 8th value is at most `tinyDouble` initialises with
the Vp flag false and the Vs and density flags true. -/
theorem initialize_fresh_flags (tinyDouble : α) (uninit : Bubble α) (params : List α) :
    (params.length = 7 →
      ∃ s', initializeBubble tinyDouble (fresh uninit) params = Except.ok s' ∧
        s'.mChangeVp = true ∧ s'.mChangeVs = true ∧ s'.mChangeRho = true) ∧
    (∀ h8 : params.length = 8, params[7] ≤ tinyDouble →
      ∃ s', initializeBubble tinyDouble (fresh uninit) params = Except.ok s' ∧
        s'.mChangeVp = false ∧ s'.mChangeVs = true ∧ s'.mChangeRho = true) := by
  constructor
  · intro h7
    refine ⟨_, initializeBubble_ok tinyDouble _ params (by omega), ?_⟩
    rw [(readFlags_vp tinyDouble _ params).2 (by omega),
      (readFlags_vs tinyDouble _ params).2 (by omega),
      (readFlags_rho tinyDouble _ params).2 (by omega)]
    simp [fresh]
  · intro h8 hle
    refine ⟨_, initializeBubble_ok tinyDouble _ params (by omega), ?_⟩
    rw [(readFlags_vs tinyDouble _ params).2 (by omega),
      (readFlags_rho tinyDouble _ params).2 (by omega)]
    refine ⟨?_, by simp [fresh], by simp [fresh]⟩
    have hv := (readFlags_vp tinyDouble
      { fresh uninit with
        mDepth := params[0] * 1e3, mLat := params[1], mLon := params[2],
        mRadius := params[3] * 1e3, mHWHM := params[4] * 1e3, mMax := params[5],
        mReferenceType := referenceTypeOf params[6] } params).1 (by omega)
    rw [← Bool.not_eq_true, hv]
    exact not_lt.mpr hle

/-- The spec's example configuration [100, 0, 0, 50, 20, 0.05, 0] stores
depth 100000 m, radius 50000 m and HWHM 20000 m. -/
theorem initialize_stores_fields_witness :
    7 ≤ ([100, 0, 0, 50, 20, 0.05, 0] : List ℚ).length ∧
    ∃ s', initializeBubble (1 / 10 ^ 10 : ℚ)
        ⟨0, 0, 0, 0, 0, 0, ReferenceTypes.Reference3D, true, true, true⟩
        [100, 0, 0, 50, 20, 0.05, 0] = Except.ok s' ∧
      s'.mDepth = 100 * 1000 ∧ s'.mLat = 0 ∧ s'.mLon = 0 ∧
      s'.mRadius = 50 * 1000 ∧ s'.mHWHM = 20 * 1000 ∧ s'.mMax = 0.05 :=
  ⟨by decide, initialize_stores_fields _ _ _ (by decide)⟩

/-- A selector of 1.5 lies on a boundary and selects ReferenceDiff. -/
theorem initialize_reference_type_witness :
    7 ≤ ([100, 0, 0, 50, 20, 0.05, 1.5] : List ℚ).length ∧
    ∃ s', initializeBubble (1 / 10 ^ 10 : ℚ)
        ⟨0, 0, 0, 0, 0, 0, ReferenceTypes.Reference3D, true, true, true⟩
        [100, 0, 0, 50, 20, 0.05, 1.5] = Except.ok s' ∧
      (s'.mReferenceType = ReferenceTypes.Absolute ↔ (1.5 : ℚ) < 0.5) ∧
      (s'.mReferenceType = ReferenceTypes.Reference1D ↔ (0.5 : ℚ) ≤ 1.5 ∧ (1.5 : ℚ) < 1.5) ∧
      (s'.mReferenceType = ReferenceTypes.ReferenceDiff ↔ (1.5 : ℚ) ≤ 1.5 ∧ (1.5 : ℚ) < 2.5) ∧
      (s'.mReferenceType = ReferenceTypes.Reference3D ↔ (2.5 : ℚ) ≤ 1.5) :=
  ⟨by decide, initialize_reference_type _ _ _ (by decide)⟩

/-- Nine parameters on an object whose flags were all false: Vp and Vs are
read, the density flag keeps its old value. -/
theorem initialize_flags_witness :
    7 ≤ ([100, 0, 0, 50, 20, 0.05, 0, 1, 0] : List ℚ).length ∧
    ∃ s', initializeBubble (1 / 10 ^ 10 : ℚ)
        ⟨0, 0, 0, 0, 0, 0, ReferenceTypes.Reference3D, false, false, false⟩
        [100, 0, 0, 50, 20, 0.05, 0, 1, 0] = Except.ok s' ∧
      s'.mChangeVp = true ∧ s'.mChangeVs = false ∧ s'.mChangeRho = false := by
  refine ⟨by decide, ?_⟩
  obtain ⟨s', hs, v1, -, w1, -, -, r2⟩ := initialize_flags (1 / 10 ^ 10 : ℚ)
    ⟨0, 0, 0, 0, 0, 0, ReferenceTypes.Reference3D, false, false, false⟩
    [100, 0, 0, 50, 20, 0.05, 0, 1, 0] (by decide)
  refine ⟨s', hs, (v1 (by decide)).mpr (by norm_num), ?_, r2 (by decide)⟩
  rw [← Bool.not_eq_true, w1 (by decide)]
  norm_num

/-- Seven parameters leave the three default flags on; an eighth parameter of 0
switches Vp off only. -/
theorem initialize_fresh_flags_witness :
    (∃ s', initializeBubble (1 / 10 ^ 10 : ℚ)
        (fresh ⟨0, 0, 0, 0, 0, 0, ReferenceTypes.Reference3D, false, false, false⟩)
        [100, 0, 0, 50, 20, 0.05, 0] = Except.ok s' ∧
      s'.mChangeVp = true ∧ s'.mChangeVs = true ∧ s'.mChangeRho = true) ∧
    (∃ s', initializeBubble (1 / 10 ^ 10 : ℚ)
        (fresh ⟨0, 0, 0, 0, 0, 0, ReferenceTypes.Reference3D, false, false, false⟩)
        [100, 0, 0, 50, 20, 0.05, 0, 0] = Except.ok s' ∧
      s'.mChangeVp = false ∧ s'.mChangeVs = true ∧ s'.mChangeRho = true) :=
  ⟨(initialize_fresh_flags _ _ _).1 rfl,
   (initialize_fresh_flags _ _ _).2 rfl (by norm_num)⟩

/-- Running `initializeM` with at least 7 parameters throws nothing and leaves
the object that `initializeBubble` returns. -/
theorem initializeM_run_ok (tinyDouble : α) (s : Bubble α) (params : List α)
    (h : 7 ≤ params.length) :
    Except.map (fun _ => ((initializeM tinyDouble params).run.run s).2)
        ((initializeM tinyDouble params).run.run s).1 =
      initializeBubble tinyDouble s params := by
  unfold initializeM initializeBubble
  rw [dif_neg (by omega), dif_neg (by omega)]
  rfl

/-- Running `initializeM` with fewer than 7 parameters throws the error that
`initializeBubble` returns. -/
theorem initializeM_run_error (tinyDouble : α) (s : Bubble α) (params : List α)
    (h : params.length < 7) :
    ((initializeM tinyDouble params).run.run s).1 = Except.error notEnoughParameters ∧
    initializeBubble tinyDouble s params = Except.error notEnoughParameters := by
  unfold initializeM initializeBubble
  rw [dif_pos h, dif_pos h]
  exact ⟨rfl, rfl⟩

/-- C17: a call of `initialize` with fewer than 7 parameters throws its error
and leaves the object, hence each of its ten fields, as it was before the
call. -/
theorem initialize_failure_atomic (tinyDouble : α) (s : Bubble α) (params : List α)
    (h : params.length < 7) :
    ((initializeM tinyDouble params).run.run s).1 = Except.error notEnoughParameters ∧
    ((initializeM tinyDouble params).run.run s).2 = s := by
  unfold initializeM
  rw [dif_pos h]
  exact ⟨rfl, rfl⟩

/-- Six parameters: the call throws and the object keeps its ten fields. -/
theorem initialize_failure_atomic_witness :
    ([100, 0, 0, 50, 20, 0.05] : List ℚ).length < 7 ∧
    ((initializeM (1 / 10 ^ 10 : ℚ) [100, 0, 0, 50, 20, 0.05]).run.run
      ⟨1, 2, 3, 4, 5, 6, ReferenceTypes.Reference3D, false, true, false⟩).1 =
      Except.error notEnoughParameters ∧
    ((initializeM (1 / 10 ^ 10 : ℚ) [100, 0, 0, 50, 20, 0.05]).run.run
      ⟨1, 2, 3, 4, 5, 6, ReferenceTypes.Reference3D, false, true, false⟩).2 =
      ⟨1, 2, 3, 4, 5, 6, ReferenceTypes.Reference3D, false, true, false⟩ :=
  ⟨by decide, initialize_failure_atomic _ _ _ (by decide)⟩

end InitTheorems

/-! ## `get3dProperties` -/

section PropertiesTheorems

variable {α : Type} [LinearOrderedField α]

/-- Lines 63-64 compute the maximum of `distance - mRadius` and zero. -/
theorem clampedDistance_eq_max (X : XMath α) (sqrt : α → α) (s : Bubble α)
    (r theta phi : α) :
    clampedDistance X sqrt s r theta phi =
      max (distance X sqrt s r theta phi - s.mRadius) 0 := by
  unfold clampedDistance
  dsimp only
  split
  · next h => rw [max_eq_right h.le]
  · next h => rw [max_eq_left (not_lt.mp h)]

theorem clampedDistance_nonneg (X : XMath α) (sqrt : α → α) (s : Bubble α)
    (r theta phi : α) : 0 ≤ clampedDistance X sqrt s r theta phi := by
  rw [clampedDistance_eq_max]
  exact le_max_right _ _

/-- Beyond the cutoff the method returns false and leaves the zeros of line 60. -/
theorem get3dProperties_of_gt (X : XMath α) (sqrt log exp : α → α) (s : Bubble α)
    (r theta phi rElemCenter : α)
    (h : 4 * s.mHWHM < clampedDistance X sqrt s r theta phi) :
    get3dProperties X sqrt log exp s r theta phi rElemCenter = ⟨0, 0, 0, 0, 0, false⟩ := by
  unfold get3dProperties
  dsimp only
  rw [if_pos h]

/-- Within the cutoff the method returns true and writes the Gaussian to the
quantities whose flag is set. -/
theorem get3dProperties_of_le (X : XMath α) (sqrt log exp : α → α) (s : Bubble α)
    (r theta phi rElemCenter : α)
    (h : clampedDistance X sqrt s r theta phi ≤ 4 * s.mHWHM) :
    get3dProperties X sqrt log exp s r theta phi rElemCenter =
      ⟨if s.mChangeVp then gaussian sqrt log exp s (clampedDistance X sqrt s r theta phi) else 0,
       if s.mChangeVp then gaussian sqrt log exp s (clampedDistance X sqrt s r theta phi) else 0,
       if s.mChangeVs then gaussian sqrt log exp s (clampedDistance X sqrt s r theta phi) else 0,
       if s.mChangeVs then gaussian sqrt log exp s (clampedDistance X sqrt s r theta phi) else 0,
       if s.mChangeRho then gaussian sqrt log exp s (clampedDistance X sqrt s r theta phi) else 0,
       true⟩ := by
  unfold get3dProperties
  dsimp only
  rw [if_neg (not_lt.mpr h)]
  cases s.mChangeVp <;> cases s.mChangeVs <;> cases s.mChangeRho <;> rfl

/-- Within the cutoff, what holds of the Gaussian holds of every affected
quantity. -/
theorem onAffected_of_le (X : XMath α) (sqrt log exp : α → α) (s : Bubble α)
    (r theta phi rElemCenter : α) (P : α → Prop)
    (h : clampedDistance X sqrt s r theta phi ≤ 4 * s.mHWHM)
    (hP : P (gaussian sqrt log exp s (clampedDistance X sqrt s r theta phi))) :
    OnAffected s (get3dProperties X sqrt log exp s r theta phi rElemCenter) P := by
  rw [get3dProperties_of_le X sqrt log exp s r theta phi rElemCenter h]
  refine ⟨fun hv => ?_, fun hv => ?_, fun hv => ?_⟩ <;> simp [hv, hP]

/-- C6: with d = max(distance - core radius, 0), `get3dProperties` returns true
if and only if d <= 4*HWHM, and whenever d > 4*HWHM it returns false with the
five outputs zero, whatever the flags and the peak magnitude. -/
theorem get3dProperties_inRange_iff (X : XMath α) (sqrt log exp : α → α) (s : Bubble α)
    (r theta phi rElemCenter : α) :
    ((get3dProperties X sqrt log exp s r theta phi rElemCenter).inRange = true ↔
      max (distance X sqrt s r theta phi - s.mRadius) 0 ≤ 4 * s.mHWHM) ∧
    (4 * s.mHWHM < max (distance X sqrt s r theta phi - s.mRadius) 0 →
      get3dProperties X sqrt log exp s r theta phi rElemCenter = ⟨0, 0, 0, 0, 0, false⟩) := by
  rw [← clampedDistance_eq_max]
  constructor
  · rcases lt_or_le (4 * s.mHWHM) (clampedDistance X sqrt s r theta phi) with h | h
    · rw [get3dProperties_of_gt X sqrt log exp s r theta phi rElemCenter h]
      simp [h]
    · rw [get3dProperties_of_le X sqrt log exp s r theta phi rElemCenter h]
      simp [h]
  · exact get3dProperties_of_gt X sqrt log exp s r theta phi rElemCenter

/-- C11: when `get3dProperties` returns true, with g the Gaussian at the clamped
distance: dvpv = dvph = g if the Vp flag is set and both are 0 otherwise,
dvsv = dvsh = g if the Vs flag is set and both are 0 otherwise, drho = g if the
density flag is set and 0 otherwise; with the three flags unset the result is
(0, 0, 0, 0, 0, true). -/
theorem get3dProperties_in_range_values (X : XMath α) (sqrt log exp : α → α)
    (s : Bubble α) (r theta phi rElemCenter : α)
    (h : (get3dProperties X sqrt log exp s r theta phi rElemCenter).inRange = true) :
    (s.mChangeVp = true →
      (get3dProperties X sqrt log exp s r theta phi rElemCenter).dvpv =
        gaussian sqrt log exp s (clampedDistance X sqrt s r theta phi) ∧
      (get3dProperties X sqrt log exp s r theta phi rElemCenter).dvph =
        gaussian sqrt log exp s (clampedDistance X sqrt s r theta phi)) ∧
    (s.mChangeVp = false →
      (get3dProperties X sqrt log exp s r theta phi rElemCenter).dvpv = 0 ∧
      (get3dProperties X sqrt log exp s r theta phi rElemCenter).dvph = 0) ∧
    (s.mChangeVs = true →
      (get3dProperties X sqrt log exp s r theta phi rElemCenter).dvsv =
        gaussian sqrt log exp s (clampedDistance X sqrt s r theta phi) ∧
      (get3dProperties X sqrt log exp s r theta phi rElemCenter).dvsh =
        gaussian sqrt log exp s (clampedDistance X sqrt s r theta phi)) ∧
    (s.mChangeVs = false →
      (get3dProperties X sqrt log exp s r theta phi rElemCenter).dvsv = 0 ∧
      (get3dProperties X sqrt log exp s r theta phi rElemCenter).dvsh = 0) ∧
    (s.mChangeRho = true →
      (get3dProperties X sqrt log exp s r theta phi rElemCenter).drho =
        gaussian sqrt log exp s (clampedDistance X sqrt s r theta phi)) ∧
    (s.mChangeRho = false →
      (get3dProperties X sqrt log exp s r theta phi rElemCenter).drho = 0) ∧
    (s.mChangeVp = false → s.mChangeVs = false → s.mChangeRho = false →
      get3dProperties X sqrt log exp s r theta phi rElemCenter = ⟨0, 0, 0, 0, 0, true⟩) := by
  have hle : clampedDistance X sqrt s r theta phi ≤ 4 * s.mHWHM := by
    by_contra hc
    rw [get3dProperties_of_gt X sqrt log exp s r theta phi rElemCenter (not_le.mp hc)] at h
    exact Bool.false_ne_true h
  rw [get3dProperties_of_le X sqrt log exp s r theta phi rElemCenter hle]
  refine ⟨fun hv => ?_, fun hv => ?_, fun hv => ?_, fun hv => ?_, fun hv => ?_,
    fun hv => ?_, fun h1 h2 h3 => ?_⟩ <;> simp [*]

/-- Running `get3dPropertiesM` leaves the object as it was, returns the boolean
of `get3dProperties` and leaves its five perturbations in the output variables,
whatever these held before. -/
theorem get3dPropertiesM_run (X : XMath α) (sqrt log exp : α → α) (s : Bubble α)
    (r theta phi rElemCenter : α) (o : Outputs α) :
    (get3dPropertiesM X sqrt log exp r theta phi rElemCenter).run (s, o) =
      ((get3dProperties X sqrt log exp s r theta phi rElemCenter).inRange,
       (s, ⟨(get3dProperties X sqrt log exp s r theta phi rElemCenter).dvpv,
            (get3dProperties X sqrt log exp s r theta phi rElemCenter).dvph,
            (get3dProperties X sqrt log exp s r theta phi rElemCenter).dvsv,
            (get3dProperties X sqrt log exp s r theta phi rElemCenter).dvsh,
            (get3dProperties X sqrt log exp s r theta phi rElemCenter).drho⟩)) := by
  by_cases hc : distance X sqrt s r theta phi - s.mRadius < 0
  · have hd : clampedDistance X sqrt s r theta phi = 0 := by
      unfold clampedDistance
      dsimp only
      rw [if_pos hc]
    unfold distance xyzBubble at hc
    dsimp only at hc
    by_cases hcut : 0 > 4 * s.mHWHM
    · rw [get3dProperties_of_gt X sqrt log exp s r theta phi rElemCenter (by rw [hd]; exact hcut)]
      simp only [get3dPropertiesM, StateT.run, bind, StateT.bind, get, getThe, MonadStateOf.get,
        StateT.get, modify, modifyGet, MonadStateOf.modifyGet, StateT.modifyGet, pure,
        StateT.pure, if_pos hc, if_pos hcut]
    · rw [get3dProperties_of_le X sqrt log exp s r theta phi rElemCenter
        (by rw [hd]; exact not_lt.mp hcut), hd]
      unfold gaussian
      cases hvp : s.mChangeVp <;> cases hvs : s.mChangeVs <;> cases hrho : s.mChangeRho <;>
        simp only [get3dPropertiesM, StateT.run, bind, StateT.bind, get, getThe,
          MonadStateOf.get, StateT.get, modify, modifyGet, MonadStateOf.modifyGet,
          StateT.modifyGet, pure, StateT.pure, if_pos hc, if_neg hcut, hvp, hvs, hrho,
          if_true, if_false, Bool.false_eq_true]
  · have hd : clampedDistance X sqrt s r theta phi = distance X sqrt s r theta phi - s.mRadius := by
      unfold clampedDistance
      dsimp only
      rw [if_neg hc]
    by_cases hcut : distance X sqrt s r theta phi - s.mRadius > 4 * s.mHWHM
    · rw [get3dProperties_of_gt X sqrt log exp s r theta phi rElemCenter (by rw [hd]; exact hcut)]
      unfold distance xyzBubble at hc hcut
      dsimp only at hc hcut
      simp only [get3dPropertiesM, StateT.run, bind, StateT.bind, get, getThe, MonadStateOf.get,
        StateT.get, modify, modifyGet, MonadStateOf.modifyGet, StateT.modifyGet, pure,
        StateT.pure, if_neg hc, if_pos hcut]
    · rw [get3dProperties_of_le X sqrt log exp s r theta phi rElemCenter
        (by rw [hd]; exact not_lt.mp hcut), hd]
      unfold gaussian
      unfold distance xyzBubble at hc hcut ⊢
      dsimp only at hc hcut ⊢
      cases hvp : s.mChangeVp <;> cases hvs : s.mChangeVs <;> cases hrho : s.mChangeRho <;>
        simp only [get3dPropertiesM, StateT.run, bind, StateT.bind, get, getThe,
          MonadStateOf.get, StateT.get, modify, modifyGet, MonadStateOf.modifyGet,
          StateT.modifyGet, pure, StateT.pure, if_neg hc, if_neg hcut, hvp, hvs, hrho,
          if_true, if_false, Bool.false_eq_true]

/-- C14: `get3dProperties` does not modify the object, and its boolean and five
perturbations are a function of the object and the query point (r, theta, phi)
alone: a call leaves the object as it was, two calls on the same object and
point that differ in `rElemCenter` and in what the output variables held before
end with the same boolean, the same outputs and the same object, and these are
the values of the function `get3dProperties`, itself the same for every
`rElemCenter`. -/
theorem get3dProperties_pure (X : XMath α) (sqrt log exp : α → α) (s : Bubble α)
    (r theta phi rElemCenter1 rElemCenter2 : α) (o1 o2 : Outputs α) :
    ((get3dPropertiesM X sqrt log exp r theta phi rElemCenter1).run (s, o1)).2.1 = s ∧
    (get3dPropertiesM X sqrt log exp r theta phi rElemCenter1).run (s, o1) =
      (get3dPropertiesM X sqrt log exp r theta phi rElemCenter2).run (s, o2) ∧
    (get3dPropertiesM X sqrt log exp r theta phi rElemCenter1).run (s, o1) =
      ((get3dProperties X sqrt log exp s r theta phi rElemCenter1).inRange,
       (s, ⟨(get3dProperties X sqrt log exp s r theta phi rElemCenter1).dvpv,
            (get3dProperties X sqrt log exp s r theta phi rElemCenter1).dvph,
            (get3dProperties X sqrt log exp s r theta phi rElemCenter1).dvsv,
            (get3dProperties X sqrt log exp s r theta phi rElemCenter1).dvsh,
            (get3dProperties X sqrt log exp s r theta phi rElemCenter1).drho⟩)) ∧
    get3dProperties X sqrt log exp s r theta phi rElemCenter1 =
      get3dProperties X sqrt log exp s r theta phi rElemCenter2 := by
  have e : get3dProperties X sqrt log exp s r theta phi rElemCenter1 =
      get3dProperties X sqrt log exp s r theta phi rElemCenter2 := by
    unfold get3dProperties
    rfl
  refine ⟨?_, ?_, get3dPropertiesM_run X sqrt log exp s r theta phi rElemCenter1 o1, e⟩
  · rw [get3dPropertiesM_run]
  · rw [get3dPropertiesM_run, get3dPropertiesM_run, e]

end PropertiesTheorems

/-! ## The Gaussian over the real numbers -/

section RealTheorems

/-- With `HWHM > 0` the exponent of line 71 is `-(d/HWHM)^2 * ln 2`: no
division of lines 70-71 is by zero. -/
theorem gaussian_real (s : Bubble ℝ) (d : ℝ) (hH : 0 < s.mHWHM) :
    gaussian Real.sqrt Real.log Real.exp s d =
      s.mMax * Real.exp (-(d * d) / (s.mHWHM * s.mHWHM) * Real.log 2) := by
  have hl : 0 < Real.log 2 := Real.log_pos (by norm_num)
  have h2 : (0 : ℝ) ≤ 2 * Real.log 2 := by positivity
  have hs : Real.sqrt (2 * Real.log 2) * Real.sqrt (2 * Real.log 2) = 2 * Real.log 2 :=
    Real.mul_self_sqrt h2
  have e : s.mHWHM / Real.sqrt (2 * Real.log 2) * (s.mHWHM / Real.sqrt (2 * Real.log 2)) * 2 =
      s.mHWHM * s.mHWHM / Real.log 2 := by
    rw [div_mul_div_comm, hs]
    field_simp
    ring
  unfold gaussian
  dsimp only
  rw [e]
  congr 2
  field_simp

/-- At clamped distance zero the Gaussian is the peak magnitude. -/
theorem gaussian_zero (s : Bubble ℝ) :
    gaussian Real.sqrt Real.log Real.exp s 0 = s.mMax := by
  unfold gaussian
  simp

/-- At clamped distance `HWHM` the Gaussian is half the peak magnitude. -/
theorem gaussian_hwhm (s : Bubble ℝ) (hH : 0 < s.mHWHM) :
    gaussian Real.sqrt Real.log Real.exp s s.mHWHM = s.mMax / 2 := by
  rw [gaussian_real s _ hH, neg_div, div_self (mul_pos hH hH).ne', neg_one_mul,
    Real.exp_neg, Real.exp_log (by norm_num)]
  ring

/-- The factor that multiplies the peak magnitude is positive and at most one. -/
theorem gaussian_factor (s : Bubble ℝ) (d : ℝ) (hH : 0 < s.mHWHM) :
    ∃ e : ℝ, 0 < e ∧ e ≤ 1 ∧ gaussian Real.sqrt Real.log Real.exp s d = s.mMax * e := by
  refine ⟨_, Real.exp_pos _, ?_, gaussian_real s d hH⟩
  rw [Real.exp_le_one_iff]
  have hl : 0 < Real.log 2 := Real.log_pos (by norm_num)
  have hq : 0 ≤ d * d / (s.mHWHM * s.mHWHM) :=
    div_nonneg (mul_self_nonneg d) (mul_self_nonneg _)
  rw [neg_div, neg_mul]
  exact neg_nonpos.mpr (mul_nonneg hq hl.le)

/-- The factor that multiplies the peak magnitude does not increase with the
clamped distance. -/
theorem gaussian_factor_antitone (s : Bubble ℝ) (d1 d2 : ℝ) (h0 : 0 ≤ d1) (h12 : d1 ≤ d2) :
    Real.exp (-(d2 * d2) / (s.mHWHM * s.mHWHM) * Real.log 2) ≤
      Real.exp (-(d1 * d1) / (s.mHWHM * s.mHWHM) * Real.log 2) := by
  have hl : 0 < Real.log 2 := Real.log_pos (by norm_num)
  have hsq : d1 * d1 ≤ d2 * d2 := mul_self_le_mul_self h0 h12
  rw [Real.exp_le_exp]
  apply mul_le_mul_of_nonneg_right _ hl.le
  apply div_le_div_of_nonneg_right _ (mul_self_nonneg _)
  linarith

/-- Under the north pole, on the polar axis, the distance to the bubble centre
is the difference of the radii. -/
theorem distance_polar (depth radius hwhm peak r : ℝ) :
    distance (sphericalXMath Real.sin Real.cos Real.pi) Real.sqrt
      (polarBubble depth radius hwhm peak) r 0 0 = |6371000 - depth - r| := by
  unfold distance xyzBubble sphericalXMath polarBubble RDCol3.sub RDCol3.norm
  simp [Real.sqrt_mul_self_eq_abs]

/-- Under the north pole, on the polar axis, the clamped distance. -/
theorem clampedDistance_polar (depth radius hwhm peak r : ℝ) :
    clampedDistance (sphericalXMath Real.sin Real.cos Real.pi) Real.sqrt
      (polarBubble depth radius hwhm peak) r 0 0 = max (|6371000 - depth - r| - radius) 0 := by
  rw [clampedDistance_eq_max, distance_polar]
  rfl

/-- At the cutoff, clamped distance `4 * HWHM`, the Gaussian is the peak
magnitude divided by `2 ^ 16`. -/
theorem gaussian_cutoff (s : Bubble ℝ) (hH : 0 < s.mHWHM) :
    gaussian Real.sqrt Real.log Real.exp s (4 * s.mHWHM) = s.mMax / 65536 := by
  have hq : -(4 * s.mHWHM * (4 * s.mHWHM)) / (s.mHWHM * s.mHWHM) = -16 := by
    field_simp
    ring
  have hp := Real.exp_nat_mul (Real.log 2) 16
  norm_num at hp
  rw [gaussian_real s _ hH, hq, neg_mul, Real.exp_neg, hp, Real.exp_log (by norm_num)]
  norm_num
  ring

/-- The method on the polar axis for a bubble under the north pole, within the
cutoff. -/
theorem get3dProperties_polar (depth radius hwhm peak r rElemCenter : ℝ)
    (h : max (|6371000 - depth - r| - radius) 0 ≤ 4 * hwhm) :
    get3dProperties (sphericalXMath Real.sin Real.cos Real.pi) Real.sqrt Real.log Real.exp
      (polarBubble depth radius hwhm peak) r 0 0 rElemCenter =
      ⟨gaussian Real.sqrt Real.log Real.exp (polarBubble depth radius hwhm peak)
         (max (|6371000 - depth - r| - radius) 0),
       gaussian Real.sqrt Real.log Real.exp (polarBubble depth radius hwhm peak)
         (max (|6371000 - depth - r| - radius) 0),
       gaussian Real.sqrt Real.log Real.exp (polarBubble depth radius hwhm peak)
         (max (|6371000 - depth - r| - radius) 0),
       gaussian Real.sqrt Real.log Real.exp (polarBubble depth radius hwhm peak)
         (max (|6371000 - depth - r| - radius) 0),
       gaussian Real.sqrt Real.log Real.exp (polarBubble depth radius hwhm peak)
         (max (|6371000 - depth - r| - radius) 0),
       true⟩ := by
  rw [get3dProperties_of_le _ _ _ _ _ _ _ _ _ (by rw [clampedDistance_polar]; exact h),
    clampedDistance_polar]
  rfl

/-- C7: for a bubble with HWHM > 0 and a query point whose distance to the
bubble centre is strictly less than the core radius (which is then positive),
`get3dProperties` returns true and every affected quantity equals the peak
magnitude. -/
theorem get3dProperties_inside_core (X : XMath ℝ) (s : Bubble ℝ)
    (r theta phi rElemCenter : ℝ) (hH : 0 < s.mHWHM)
    (hd : distance X Real.sqrt s r theta phi < s.mRadius) :
    (get3dProperties X Real.sqrt Real.log Real.exp s r theta phi rElemCenter).inRange = true ∧
    OnAffected s (get3dProperties X Real.sqrt Real.log Real.exp s r theta phi rElemCenter)
      (fun v => v = s.mMax) := by
  have hc : clampedDistance X Real.sqrt s r theta phi = 0 := by
    unfold clampedDistance
    dsimp only
    rw [if_pos (sub_neg.mpr hd)]
  have hle : clampedDistance X Real.sqrt s r theta phi ≤ 4 * s.mHWHM := by
    rw [hc]
    positivity
  refine ⟨?_, onAffected_of_le X _ _ _ s r theta phi rElemCenter _ hle ?_⟩
  · rw [get3dProperties_of_le X _ _ _ s r theta phi rElemCenter hle]
  · rw [hc]
    exact gaussian_zero s

/-- C8: for a bubble with HWHM > 0 and a query point whose distance to the
bubble centre minus the core radius is exactly HWHM, `get3dProperties` returns
true and every affected quantity equals half the peak magnitude. -/
theorem get3dProperties_half_maximum (X : XMath ℝ) (s : Bubble ℝ)
    (r theta phi rElemCenter : ℝ) (hH : 0 < s.mHWHM)
    (hd : distance X Real.sqrt s r theta phi - s.mRadius = s.mHWHM) :
    (get3dProperties X Real.sqrt Real.log Real.exp s r theta phi rElemCenter).inRange = true ∧
    OnAffected s (get3dProperties X Real.sqrt Real.log Real.exp s r theta phi rElemCenter)
      (fun v => v = s.mMax / 2) := by
  have hc : clampedDistance X Real.sqrt s r theta phi = s.mHWHM := by
    rw [clampedDistance_eq_max, hd]
    exact max_eq_left hH.le
  have hle : clampedDistance X Real.sqrt s r theta phi ≤ 4 * s.mHWHM := by
    rw [hc]
    linarith
  refine ⟨?_, onAffected_of_le X _ _ _ s r theta phi rElemCenter _ hle ?_⟩
  · rw [get3dProperties_of_le X _ _ _ s r theta phi rElemCenter hle]
  · rw [hc]
    exact gaussian_hwhm s hH

/-- C9, amended: for a bubble with HWHM > 0 and two query points with clamped
distances d1 <= d2, each of the five perturbations at the second point is at
most the one at the first point when the peak magnitude is >= 0, and at least
the one at the first point when the peak magnitude is <= 0. -/
theorem get3dProperties_monotone (X : XMath ℝ) (s : Bubble ℝ)
    (r1 theta1 phi1 rElemCenter1 r2 theta2 phi2 rElemCenter2 : ℝ) (hH : 0 < s.mHWHM)
    (hd : clampedDistance X Real.sqrt s r1 theta1 phi1 ≤
      clampedDistance X Real.sqrt s r2 theta2 phi2) :
    (0 ≤ s.mMax →
      (get3dProperties X Real.sqrt Real.log Real.exp s r2 theta2 phi2 rElemCenter2).AllLe
        (get3dProperties X Real.sqrt Real.log Real.exp s r1 theta1 phi1 rElemCenter1)) ∧
    (s.mMax ≤ 0 →
      (get3dProperties X Real.sqrt Real.log Real.exp s r1 theta1 phi1 rElemCenter1).AllLe
        (get3dProperties X Real.sqrt Real.log Real.exp s r2 theta2 phi2 rElemCenter2)) := by
  have h0 := clampedDistance_nonneg X Real.sqrt s r1 theta1 phi1
  have he := gaussian_factor_antitone s _ _ h0 hd
  have hp := Real.exp_pos
    (-(clampedDistance X Real.sqrt s r1 theta1 phi1 *
      clampedDistance X Real.sqrt s r1 theta1 phi1) / (s.mHWHM * s.mHWHM) * Real.log 2)
  have e1 := gaussian_real s (clampedDistance X Real.sqrt s r1 theta1 phi1) hH
  have e2 := gaussian_real s (clampedDistance X Real.sqrt s r2 theta2 phi2) hH
  constructor
  · intro hP
    have hg1 : 0 ≤ gaussian Real.sqrt Real.log Real.exp s
        (clampedDistance X Real.sqrt s r1 theta1 phi1) := by
      rw [e1]
      exact mul_nonneg hP hp.le
    have hg : gaussian Real.sqrt Real.log Real.exp s
        (clampedDistance X Real.sqrt s r2 theta2 phi2) ≤
        gaussian Real.sqrt Real.log Real.exp s
        (clampedDistance X Real.sqrt s r1 theta1 phi1) := by
      rw [e1, e2]
      exact mul_le_mul_of_nonneg_left he hP
    rcases lt_or_le (4 * s.mHWHM) (clampedDistance X Real.sqrt s r2 theta2 phi2) with h2 | h2
    · rw [get3dProperties_of_gt X _ _ _ s r2 theta2 phi2 rElemCenter2 h2]
      rcases lt_or_le (4 * s.mHWHM) (clampedDistance X Real.sqrt s r1 theta1 phi1) with h1 | h1
      · rw [get3dProperties_of_gt X _ _ _ s r1 theta1 phi1 rElemCenter1 h1]
        simp [Perturbation.AllLe]
      · rw [get3dProperties_of_le X _ _ _ s r1 theta1 phi1 rElemCenter1 h1]
        unfold Perturbation.AllLe
        dsimp only
        refine ⟨?_, ?_, ?_, ?_, ?_⟩ <;> split_ifs <;> first | exact le_refl _ | exact hg1
    · rw [get3dProperties_of_le X _ _ _ s r1 theta1 phi1 rElemCenter1 (hd.trans h2),
        get3dProperties_of_le X _ _ _ s r2 theta2 phi2 rElemCenter2 h2]
      unfold Perturbation.AllLe
      dsimp only
      refine ⟨?_, ?_, ?_, ?_, ?_⟩ <;> split_ifs <;> first | exact le_refl _ | exact hg
  · intro hP
    have hg1 : gaussian Real.sqrt Real.log Real.exp s
        (clampedDistance X Real.sqrt s r1 theta1 phi1) ≤ 0 := by
      rw [e1]
      exact mul_nonpos_of_nonpos_of_nonneg hP hp.le
    have hg : gaussian Real.sqrt Real.log Real.exp s
        (clampedDistance X Real.sqrt s r1 theta1 phi1) ≤
        gaussian Real.sqrt Real.log Real.exp s
        (clampedDistance X Real.sqrt s r2 theta2 phi2) := by
      rw [e1, e2]
      exact mul_le_mul_of_nonpos_left he hP
    rcases lt_or_le (4 * s.mHWHM) (clampedDistance X Real.sqrt s r2 theta2 phi2) with h2 | h2
    · rw [get3dProperties_of_gt X _ _ _ s r2 theta2 phi2 rElemCenter2 h2]
      rcases lt_or_le (4 * s.mHWHM) (clampedDistance X Real.sqrt s r1 theta1 phi1) with h1 | h1
      · rw [get3dProperties_of_gt X _ _ _ s r1 theta1 phi1 rElemCenter1 h1]
        simp [Perturbation.AllLe]
      · rw [get3dProperties_of_le X _ _ _ s r1 theta1 phi1 rElemCenter1 h1]
        unfold Perturbation.AllLe
        dsimp only
        refine ⟨?_, ?_, ?_, ?_, ?_⟩ <;> split_ifs <;> first | exact le_refl _ | exact hg1
    · rw [get3dProperties_of_le X _ _ _ s r1 theta1 phi1 rElemCenter1 (hd.trans h2),
        get3dProperties_of_le X _ _ _ s r2 theta2 phi2 rElemCenter2 h2]
      unfold Perturbation.AllLe
      dsimp only
      refine ⟨?_, ?_, ?_, ?_, ?_⟩ <;> split_ifs <;> first | exact le_refl _ | exact hg

/-- C10, amended: for a bubble with HWHM > 0, at clamped distance exactly
4*HWHM `get3dProperties` returns true and every affected quantity has the sign
of the peak magnitude: strictly between 0 and the peak for a positive peak, zero
for a zero peak, strictly between the peak and 0 for a negative peak; at any
clamped distance strictly greater than 4*HWHM it returns false with the five
outputs zero. -/
theorem get3dProperties_cutoff (X : XMath ℝ) (s : Bubble ℝ)
    (r theta phi rElemCenter : ℝ) (hH : 0 < s.mHWHM) :
    (clampedDistance X Real.sqrt s r theta phi = 4 * s.mHWHM →
      (get3dProperties X Real.sqrt Real.log Real.exp s r theta phi rElemCenter).inRange = true ∧
      OnAffected s (get3dProperties X Real.sqrt Real.log Real.exp s r theta phi rElemCenter)
        (fun v => (0 < s.mMax → 0 < v ∧ v < s.mMax) ∧ (s.mMax = 0 → v = 0) ∧
          (s.mMax < 0 → s.mMax < v ∧ v < 0))) ∧
    (4 * s.mHWHM < clampedDistance X Real.sqrt s r theta phi →
      get3dProperties X Real.sqrt Real.log Real.exp s r theta phi rElemCenter =
        ⟨0, 0, 0, 0, 0, false⟩) := by
  refine ⟨fun hc => ?_, get3dProperties_of_gt X _ _ _ s r theta phi rElemCenter⟩
  have hle : clampedDistance X Real.sqrt s r theta phi ≤ 4 * s.mHWHM := hc.le
  refine ⟨?_, onAffected_of_le X _ _ _ s r theta phi rElemCenter _ hle ?_⟩
  · rw [get3dProperties_of_le X _ _ _ s r theta phi rElemCenter hle]
  · rw [hc, gaussian_cutoff s hH]
    refine ⟨fun hP => ⟨by positivity, by linarith⟩, fun hP => by simp [hP],
      fun hP => ⟨by linarith, by linarith⟩⟩

/-- The spec's example (core radius 50 km, HWHM 20 km): a point 250 km from the
bubble centre has clamped distance 200 km > 80 km and gets zeros and false. -/
theorem get3dProperties_inRange_iff_witness :
    get3dProperties (sphericalXMath Real.sin Real.cos Real.pi) Real.sqrt Real.log Real.exp
      (polarBubble 100000 50000 20000 0.05) 6021000 0 0 6021000 = ⟨0, 0, 0, 0, 0, false⟩ :=
  (get3dProperties_inRange_iff _ _ _ _ _ _ _ _ _).2
    (by rw [distance_polar]; norm_num [polarBubble])

/-- A point 10 km from the centre of a bubble with a core radius of 50 km gets
the peak magnitude 0.05 on all five quantities. -/
theorem get3dProperties_inside_core_witness :
    0 < (polarBubble (100000 : ℝ) 50000 20000 0.05).mHWHM ∧
    distance (sphericalXMath Real.sin Real.cos Real.pi) Real.sqrt (polarBubble 100000 50000 20000 0.05) 6261000 0 0 <
      (polarBubble (100000 : ℝ) 50000 20000 0.05).mRadius ∧
    get3dProperties (sphericalXMath Real.sin Real.cos Real.pi) Real.sqrt Real.log Real.exp
      (polarBubble 100000 50000 20000 0.05) 6261000 0 0 6261000 =
      ⟨0.05, 0.05, 0.05, 0.05, 0.05, true⟩ := by
  have h1 : 0 < (polarBubble (100000 : ℝ) 50000 20000 0.05).mHWHM := by
    norm_num [polarBubble]
  have h2 : distance (sphericalXMath Real.sin Real.cos Real.pi) Real.sqrt (polarBubble 100000 50000 20000 0.05) 6261000 0 0 <
      (polarBubble (100000 : ℝ) 50000 20000 0.05).mRadius := by
    rw [distance_polar]
    norm_num [polarBubble]
  obtain ⟨hin, hvp, hvs, hrho⟩ := get3dProperties_inside_core
    (sphericalXMath Real.sin Real.cos Real.pi) (polarBubble 100000 50000 20000 0.05)
    6261000 0 0 6261000 h1 h2
  exact ⟨h1, h2, Perturbation.ext (hvp rfl).1 (hvp rfl).2 (hvs rfl).1 (hvs rfl).2
    (hrho rfl) hin⟩

/-- A point 70 km from the centre of a bubble with a core radius of 50 km and a
HWHM of 20 km gets half the peak magnitude 0.05 on all five quantities. -/
theorem get3dProperties_half_maximum_witness :
    0 < (polarBubble (100000 : ℝ) 50000 20000 0.05).mHWHM ∧
    distance (sphericalXMath Real.sin Real.cos Real.pi) Real.sqrt (polarBubble 100000 50000 20000 0.05) 6201000 0 0 -
        (polarBubble (100000 : ℝ) 50000 20000 0.05).mRadius =
      (polarBubble (100000 : ℝ) 50000 20000 0.05).mHWHM ∧
    get3dProperties (sphericalXMath Real.sin Real.cos Real.pi) Real.sqrt Real.log Real.exp
      (polarBubble 100000 50000 20000 0.05) 6201000 0 0 6201000 =
      ⟨0.05 / 2, 0.05 / 2, 0.05 / 2, 0.05 / 2, 0.05 / 2, true⟩ := by
  have h1 : 0 < (polarBubble (100000 : ℝ) 50000 20000 0.05).mHWHM := by
    norm_num [polarBubble]
  have h2 : distance (sphericalXMath Real.sin Real.cos Real.pi) Real.sqrt (polarBubble 100000 50000 20000 0.05) 6201000 0 0 -
        (polarBubble (100000 : ℝ) 50000 20000 0.05).mRadius =
      (polarBubble (100000 : ℝ) 50000 20000 0.05).mHWHM := by
    rw [distance_polar]
    norm_num [polarBubble]
  obtain ⟨hin, hvp, hvs, hrho⟩ := get3dProperties_half_maximum
    (sphericalXMath Real.sin Real.cos Real.pi) (polarBubble 100000 50000 20000 0.05)
    6201000 0 0 6201000 h1 h2
  exact ⟨h1, h2, Perturbation.ext (hvp rfl).1 (hvp rfl).2 (hvs rfl).1 (hvs rfl).2
    (hrho rfl) hin⟩

/-- C9 fails for a negative peak: a bubble with radius 50 km, HWHM 20 km and
peak -0.05 returns -0.05 at its centre (clamped distance 0) and -0.025 at 70 km
from the centre (clamped distance 20 km), which is not below -0.05. -/
theorem get3dProperties_monotone_counterexample :
    0 ≤ (polarBubble (100000 : ℝ) 50000 20000 (-0.05)).mRadius ∧
    0 < (polarBubble (100000 : ℝ) 50000 20000 (-0.05)).mHWHM ∧
    (polarBubble (100000 : ℝ) 50000 20000 (-0.05)).mChangeVp = true ∧
    clampedDistance (sphericalXMath Real.sin Real.cos Real.pi) Real.sqrt (polarBubble 100000 50000 20000 (-0.05)) 6271000 0 0 = 0 ∧
    clampedDistance (sphericalXMath Real.sin Real.cos Real.pi) Real.sqrt (polarBubble 100000 50000 20000 (-0.05)) 6201000 0 0 = 20000 ∧
    (get3dProperties (sphericalXMath Real.sin Real.cos Real.pi) Real.sqrt Real.log Real.exp
      (polarBubble 100000 50000 20000 (-0.05)) 6271000 0 0 6271000).dvpv = -0.05 ∧
    (get3dProperties (sphericalXMath Real.sin Real.cos Real.pi) Real.sqrt Real.log Real.exp
      (polarBubble 100000 50000 20000 (-0.05)) 6201000 0 0 6201000).dvpv = -0.025 ∧
    ¬ ((get3dProperties (sphericalXMath Real.sin Real.cos Real.pi) Real.sqrt Real.log Real.exp
        (polarBubble 100000 50000 20000 (-0.05)) 6201000 0 0 6201000).dvpv ≤
      (get3dProperties (sphericalXMath Real.sin Real.cos Real.pi) Real.sqrt Real.log Real.exp
        (polarBubble 100000 50000 20000 (-0.05)) 6271000 0 0 6271000).dvpv) := by
  have hH : 0 < (polarBubble (100000 : ℝ) 50000 20000 (-0.05)).mHWHM := by
    norm_num [polarBubble]
  have m1 : max (|(6371000 : ℝ) - 100000 - 6271000| - 50000) 0 = 0 := by norm_num
  have m2 : max (|(6371000 : ℝ) - 100000 - 6201000| - 50000) 0 = 20000 := by norm_num
  have g1 : gaussian Real.sqrt Real.log Real.exp
      (polarBubble 100000 50000 20000 (-0.05)) 0 = -0.05 := gaussian_zero _
  have g2 : gaussian Real.sqrt Real.log Real.exp
      (polarBubble 100000 50000 20000 (-0.05)) 20000 = -0.05 / 2 := gaussian_hwhm _ hH
  have v1 : (get3dProperties (sphericalXMath Real.sin Real.cos Real.pi) Real.sqrt Real.log Real.exp
      (polarBubble 100000 50000 20000 (-0.05)) 6271000 0 0 6271000).dvpv = -0.05 := by
    rw [get3dProperties_polar _ _ _ _ _ _ (by rw [m1]; norm_num)]
    dsimp only
    rw [m1, g1]
  have v2 : (get3dProperties (sphericalXMath Real.sin Real.cos Real.pi) Real.sqrt Real.log Real.exp
      (polarBubble 100000 50000 20000 (-0.05)) 6201000 0 0 6201000).dvpv = -0.025 := by
    rw [get3dProperties_polar _ _ _ _ _ _ (by rw [m2]; norm_num)]
    dsimp only
    rw [m2, g2]
    norm_num
  refine ⟨by norm_num [polarBubble], hH, rfl, ?_, ?_, v1, v2, ?_⟩
  · rw [clampedDistance_polar, m1]
  · rw [clampedDistance_polar, m2]
  · rw [v1, v2]
    norm_num

/-- With the peak 0.05 the value 70 km from the centre is at most the value at
the centre, on all five quantities. -/
theorem get3dProperties_monotone_witness :
    0 < (polarBubble (100000 : ℝ) 50000 20000 0.05).mHWHM ∧
    clampedDistance (sphericalXMath Real.sin Real.cos Real.pi) Real.sqrt (polarBubble 100000 50000 20000 0.05) 6271000 0 0 ≤
      clampedDistance (sphericalXMath Real.sin Real.cos Real.pi) Real.sqrt (polarBubble 100000 50000 20000 0.05) 6201000 0 0 ∧
    (get3dProperties (sphericalXMath Real.sin Real.cos Real.pi) Real.sqrt Real.log Real.exp
      (polarBubble 100000 50000 20000 0.05) 6201000 0 0 6201000).AllLe
    (get3dProperties (sphericalXMath Real.sin Real.cos Real.pi) Real.sqrt Real.log Real.exp
      (polarBubble 100000 50000 20000 0.05) 6271000 0 0 6271000) := by
  have h1 : 0 < (polarBubble (100000 : ℝ) 50000 20000 0.05).mHWHM := by
    norm_num [polarBubble]
  have h2 : clampedDistance (sphericalXMath Real.sin Real.cos Real.pi) Real.sqrt (polarBubble 100000 50000 20000 0.05) 6271000 0 0 ≤
      clampedDistance (sphericalXMath Real.sin Real.cos Real.pi) Real.sqrt (polarBubble 100000 50000 20000 0.05) 6201000 0 0 := by
    rw [clampedDistance_polar, clampedDistance_polar]
    norm_num
  exact ⟨h1, h2, (get3dProperties_monotone _ _ _ _ _ _ _ _ _ _ h1 h2).1
    (by norm_num [polarBubble])⟩

/-- C10 fails for a negative peak: a bubble with radius 50 km, HWHM 20 km and
peak -0.05 returns, 130 km from its centre (clamped distance 80 km = 4*HWHM),
the value -0.05/65536, which is not positive. -/
theorem get3dProperties_cutoff_counterexample :
    0 ≤ (polarBubble (100000 : ℝ) 50000 20000 (-0.05)).mRadius ∧
    0 < (polarBubble (100000 : ℝ) 50000 20000 (-0.05)).mHWHM ∧
    (polarBubble (100000 : ℝ) 50000 20000 (-0.05)).mChangeVp = true ∧
    clampedDistance (sphericalXMath Real.sin Real.cos Real.pi) Real.sqrt (polarBubble 100000 50000 20000 (-0.05)) 6141000 0 0 =
      4 * (polarBubble (100000 : ℝ) 50000 20000 (-0.05)).mHWHM ∧
    (get3dProperties (sphericalXMath Real.sin Real.cos Real.pi) Real.sqrt Real.log Real.exp
      (polarBubble 100000 50000 20000 (-0.05)) 6141000 0 0 6141000).dvpv = -0.05 / 65536 ∧
    ¬ (0 < (get3dProperties (sphericalXMath Real.sin Real.cos Real.pi) Real.sqrt Real.log Real.exp
      (polarBubble 100000 50000 20000 (-0.05)) 6141000 0 0 6141000).dvpv) := by
  have hH : 0 < (polarBubble (100000 : ℝ) 50000 20000 (-0.05)).mHWHM := by
    norm_num [polarBubble]
  have m : max (|(6371000 : ℝ) - 100000 - 6141000| - 50000) 0 = 4 * 20000 := by norm_num
  have g : gaussian Real.sqrt Real.log Real.exp
      (polarBubble 100000 50000 20000 (-0.05)) (4 * 20000) = -0.05 / 65536 :=
    gaussian_cutoff _ hH
  have v : (get3dProperties (sphericalXMath Real.sin Real.cos Real.pi) Real.sqrt Real.log Real.exp
      (polarBubble 100000 50000 20000 (-0.05)) 6141000 0 0 6141000).dvpv = -0.05 / 65536 := by
    rw [get3dProperties_polar _ _ _ _ _ _ (by rw [m])]
    dsimp only
    rw [m, g]
  refine ⟨by norm_num [polarBubble], hH, rfl, ?_, v, ?_⟩
  · rw [clampedDistance_polar, m]
    rfl
  · rw [v]
    norm_num

/-- With the peak 0.05 the value at clamped distance 4*HWHM is positive and
below the peak. -/
theorem get3dProperties_cutoff_witness :
    0 < (polarBubble (100000 : ℝ) 50000 20000 0.05).mHWHM ∧
    clampedDistance (sphericalXMath Real.sin Real.cos Real.pi) Real.sqrt (polarBubble 100000 50000 20000 0.05) 6141000 0 0 =
      4 * (polarBubble (100000 : ℝ) 50000 20000 0.05).mHWHM ∧
    (get3dProperties (sphericalXMath Real.sin Real.cos Real.pi) Real.sqrt Real.log Real.exp
      (polarBubble 100000 50000 20000 0.05) 6141000 0 0 6141000).inRange = true ∧
    0 < (get3dProperties (sphericalXMath Real.sin Real.cos Real.pi) Real.sqrt Real.log Real.exp
      (polarBubble 100000 50000 20000 0.05) 6141000 0 0 6141000).dvpv ∧
    (get3dProperties (sphericalXMath Real.sin Real.cos Real.pi) Real.sqrt Real.log Real.exp
      (polarBubble 100000 50000 20000 0.05) 6141000 0 0 6141000).dvpv < 0.05 := by
  have h1 : 0 < (polarBubble (100000 : ℝ) 50000 20000 0.05).mHWHM := by
    norm_num [polarBubble]
  have h2 : clampedDistance (sphericalXMath Real.sin Real.cos Real.pi) Real.sqrt (polarBubble 100000 50000 20000 0.05) 6141000 0 0 =
      4 * (polarBubble (100000 : ℝ) 50000 20000 0.05).mHWHM := by
    rw [clampedDistance_polar]
    norm_num [polarBubble]
  obtain ⟨hin, hvp, -, -⟩ := (get3dProperties_cutoff
    (sphericalXMath Real.sin Real.cos Real.pi) (polarBubble 100000 50000 20000 0.05)
    6141000 0 0 6141000 h1).1 h2
  have hpos : (0 : ℝ) < (polarBubble (100000 : ℝ) 50000 20000 0.05).mMax := by
    norm_num [polarBubble]
  exact ⟨h1, h2, hin, ((hvp rfl).1.1 hpos).1, ((hvp rfl).1.1 hpos).2⟩

/-- At the bubble's own anchor point the clamped distance is zero. -/
theorem clampedDistance_anchor (X : XMath ℝ) (s : Bubble ℝ) (hR : 0 ≤ s.mRadius) :
    clampedDistance X Real.sqrt s (X.getROuter - s.mDepth) (X.lat2Theta s.mLat s.mDepth)
      (X.lon2Phi s.mLon) = 0 := by
  have hd : distance X Real.sqrt s (X.getROuter - s.mDepth) (X.lat2Theta s.mLat s.mDepth)
      (X.lon2Phi s.mLon) = 0 := by
    unfold distance xyzBubble RDCol3.sub RDCol3.norm
    simp
  rw [clampedDistance_eq_max, hd, zero_sub]
  exact max_eq_right (neg_nonpos.mpr hR)

/-- The result of `get3dProperties` at the bubble's own anchor point. -/
theorem get3dProperties_anchor (X : XMath ℝ) (s : Bubble ℝ) (rElemCenter : ℝ)
    (hR : 0 ≤ s.mRadius) (hH : 0 < s.mHWHM) :
    get3dProperties X Real.sqrt Real.log Real.exp s (X.getROuter - s.mDepth)
      (X.lat2Theta s.mLat s.mDepth) (X.lon2Phi s.mLon) rElemCenter =
      ⟨if s.mChangeVp then s.mMax else 0, if s.mChangeVp then s.mMax else 0,
       if s.mChangeVs then s.mMax else 0, if s.mChangeVs then s.mMax else 0,
       if s.mChangeRho then s.mMax else 0, true⟩ := by
  have hc := clampedDistance_anchor X s hR
  rw [get3dProperties_of_le X _ _ _ s _ _ _ rElemCenter (by rw [hc]; positivity), hc,
    gaussian_zero]

/-- C12: for a bubble with radius >= 0 and HWHM > 0 and any `XMath`, the query
at the bubble's own anchor point (r = outer radius - depth, theta =
lat2Theta(lat, depth), phi = lon2Phi(lon)) returns true with every affected
quantity equal to the peak magnitude; a fresh object initialised with
[100, 0, 0, 50, 20, 0.05, 0] returns (0.05, 0.05, 0.05, 0.05, 0.05, true)
there. -/
theorem get3dProperties_at_anchor (X : XMath ℝ) (rElemCenter : ℝ) :
    (∀ s : Bubble ℝ, 0 ≤ s.mRadius → 0 < s.mHWHM →
      (get3dProperties X Real.sqrt Real.log Real.exp s (X.getROuter - s.mDepth)
        (X.lat2Theta s.mLat s.mDepth) (X.lon2Phi s.mLon) rElemCenter).inRange = true ∧
      OnAffected s
        (get3dProperties X Real.sqrt Real.log Real.exp s (X.getROuter - s.mDepth)
          (X.lat2Theta s.mLat s.mDepth) (X.lon2Phi s.mLon) rElemCenter)
        (fun v => v = s.mMax)) ∧
    (∀ (tinyDouble : ℝ) (uninit : Bubble ℝ),
      ∃ s', initializeBubble tinyDouble (fresh uninit) [100, 0, 0, 50, 20, 0.05, 0] =
          Except.ok s' ∧
        get3dProperties X Real.sqrt Real.log Real.exp s' (X.getROuter - s'.mDepth)
          (X.lat2Theta s'.mLat s'.mDepth) (X.lon2Phi s'.mLon) rElemCenter =
          ⟨0.05, 0.05, 0.05, 0.05, 0.05, true⟩) := by
  constructor
  · intro s hR hH
    rw [get3dProperties_anchor X s rElemCenter hR hH]
    refine ⟨rfl, fun hv => ?_, fun hv => ?_, fun hv => ?_⟩ <;> simp [hv]
  · intro tinyDouble uninit
    refine ⟨_, initializeBubble_ok tinyDouble _ _ (by decide), ?_⟩
    have hf : readFlags tinyDouble
        { fresh uninit with
          mDepth := 100 * 1e3, mLat := 0, mLon := 0, mRadius := 50 * 1e3,
          mHWHM := 20 * 1e3, mMax := 0.05, mReferenceType := referenceTypeOf (0 : ℝ) }
        [100, 0, 0, 50, 20, 0.05, 0] =
        { fresh uninit with
          mDepth := 100 * 1e3, mLat := 0, mLon := 0, mRadius := 50 * 1e3,
          mHWHM := 20 * 1e3, mMax := 0.05, mReferenceType := referenceTypeOf (0 : ℝ) } := rfl
    simp only [List.getElem_cons_zero, List.getElem_cons_succ]
    rw [hf, get3dProperties_anchor X _ rElemCenter (by norm_num) (by norm_num)]
    simp [fresh]

/-- The query at the anchor of the bubble under the north pole, 100 km deep,
with peak 0.05, on a spherical Earth. -/
theorem get3dProperties_at_anchor_witness :
    0 ≤ (polarBubble (100000 : ℝ) 50000 20000 0.05).mRadius ∧
    0 < (polarBubble (100000 : ℝ) 50000 20000 0.05).mHWHM ∧
    get3dProperties (sphericalXMath Real.sin Real.cos Real.pi) Real.sqrt Real.log Real.exp
      (polarBubble 100000 50000 20000 0.05) (6371000 - 100000) ((90 - 90) * Real.pi / 180)
      (0 * Real.pi / 180) 6271000 = ⟨0.05, 0.05, 0.05, 0.05, 0.05, true⟩ := by
  have h1 : 0 ≤ (polarBubble (100000 : ℝ) 50000 20000 0.05).mRadius := by
    norm_num [polarBubble]
  have h2 : 0 < (polarBubble (100000 : ℝ) 50000 20000 0.05).mHWHM := by
    norm_num [polarBubble]
  obtain ⟨hin, hvp, hvs, hrho⟩ := (get3dProperties_at_anchor
    (sphericalXMath Real.sin Real.cos Real.pi) 6271000).1
    (polarBubble 100000 50000 20000 0.05) h1 h2
  exact ⟨h1, h2, Perturbation.ext (hvp rfl).1 (hvp rfl).2 (hvs rfl).1 (hvs rfl).2
    (hrho rfl) hin⟩

/-- At the centre of the bubble under the north pole the method returns true,
and with the three flags set all five quantities carry the Gaussian. -/
theorem get3dProperties_in_range_values_witness :
    (get3dProperties (sphericalXMath Real.sin Real.cos Real.pi) Real.sqrt Real.log Real.exp
      (polarBubble 100000 50000 20000 0.05) 6271000 0 0 6271000).inRange = true ∧
    (get3dProperties (sphericalXMath Real.sin Real.cos Real.pi) Real.sqrt Real.log Real.exp
      (polarBubble 100000 50000 20000 0.05) 6271000 0 0 6271000).dvpv =
      gaussian Real.sqrt Real.log Real.exp (polarBubble 100000 50000 20000 0.05)
        (clampedDistance (sphericalXMath Real.sin Real.cos Real.pi) Real.sqrt (polarBubble 100000 50000 20000 0.05) 6271000 0 0) ∧
    (get3dProperties (sphericalXMath Real.sin Real.cos Real.pi) Real.sqrt Real.log Real.exp
      (polarBubble 100000 50000 20000 0.05) 6271000 0 0 6271000).drho =
      gaussian Real.sqrt Real.log Real.exp (polarBubble 100000 50000 20000 0.05)
        (clampedDistance (sphericalXMath Real.sin Real.cos Real.pi) Real.sqrt (polarBubble 100000 50000 20000 0.05) 6271000 0 0) := by
  have h : (get3dProperties (sphericalXMath Real.sin Real.cos Real.pi) Real.sqrt Real.log Real.exp
      (polarBubble 100000 50000 20000 0.05) 6271000 0 0 6271000).inRange = true := by
    rw [get3dProperties_polar _ _ _ _ _ _ (by norm_num)]
  obtain ⟨hvp, -, -, -, hrho, -, -⟩ := get3dProperties_in_range_values _ _ _ _ _ _ _ _ _ h
  exact ⟨h, (hvp rfl).1, hrho rfl⟩

/-- C15: two query points whose Cartesian images are at the same Euclidean
distance from the Cartesian image of the anchor get the same boolean and the
same five perturbations. -/
theorem get3dProperties_radial (X : XMath ℝ) (s : Bubble ℝ)
    (r1 theta1 phi1 rElemCenter1 r2 theta2 phi2 rElemCenter2 : ℝ)
    (h : Real.sqrt (((xyzBubble X s).c0 - (X.toCartesian ⟨r1, theta1, phi1⟩).c0) ^ 2 +
          ((xyzBubble X s).c1 - (X.toCartesian ⟨r1, theta1, phi1⟩).c1) ^ 2 +
          ((xyzBubble X s).c2 - (X.toCartesian ⟨r1, theta1, phi1⟩).c2) ^ 2) =
        Real.sqrt (((xyzBubble X s).c0 - (X.toCartesian ⟨r2, theta2, phi2⟩).c0) ^ 2 +
          ((xyzBubble X s).c1 - (X.toCartesian ⟨r2, theta2, phi2⟩).c1) ^ 2 +
          ((xyzBubble X s).c2 - (X.toCartesian ⟨r2, theta2, phi2⟩).c2) ^ 2)) :
    get3dProperties X Real.sqrt Real.log Real.exp s r1 theta1 phi1 rElemCenter1 =
      get3dProperties X Real.sqrt Real.log Real.exp s r2 theta2 phi2 rElemCenter2 := by
  have hd : distance X Real.sqrt s r1 theta1 phi1 = distance X Real.sqrt s r2 theta2 phi2 := by
    unfold distance RDCol3.sub RDCol3.norm
    simp only [← pow_two]
    exact h
  have hc : clampedDistance X Real.sqrt s r1 theta1 phi1 =
      clampedDistance X Real.sqrt s r2 theta2 phi2 := by
    rw [clampedDistance_eq_max, clampedDistance_eq_max, hd]
  unfold get3dProperties
  rw [hc]

/-- The points 70 km above and 70 km below the centre of the bubble under the
north pole get the same result. -/
theorem get3dProperties_radial_witness :
    get3dProperties (sphericalXMath Real.sin Real.cos Real.pi) Real.sqrt Real.log Real.exp
      (polarBubble 100000 50000 20000 0.05) 6201000 0 0 6201000 =
    get3dProperties (sphericalXMath Real.sin Real.cos Real.pi) Real.sqrt Real.log Real.exp
      (polarBubble 100000 50000 20000 0.05) 6341000 0 0 6341000 :=
  get3dProperties_radial _ _ _ _ _ _ _ _ _ _
    (by simp [xyzBubble, sphericalXMath, polarBubble]; norm_num)

/-- C16: with HWHM > 0, sqrt(2 ln 2) > 0, the standard deviation of line 70 is
> 0 and the divisor 2*stddev^2 of line 71 is > 0, at every clamped distance. -/
theorem gaussian_divisors_pos (s : Bubble ℝ) (hH : 0 < s.mHWHM) :
    0 < Real.sqrt (2 * Real.log 2) ∧
    0 < stddev Real.sqrt Real.log s ∧
    0 < stddev Real.sqrt Real.log s * stddev Real.sqrt Real.log s * 2 ∧
    ∀ d : ℝ, gaussian Real.sqrt Real.log Real.exp s d =
      s.mMax * Real.exp (-d * d /
        (stddev Real.sqrt Real.log s * stddev Real.sqrt Real.log s * 2)) := by
  have hl : 0 < Real.log 2 := Real.log_pos (by norm_num)
  have hs : 0 < Real.sqrt (2 * Real.log 2) := Real.sqrt_pos.mpr (by positivity)
  have hd : 0 < stddev Real.sqrt Real.log s := div_pos hH hs
  exact ⟨hs, hd, by positivity, fun _ => rfl⟩

/-- With HWHM = 20 km the divisors are positive. -/
theorem gaussian_divisors_pos_witness :
    0 < (polarBubble (100000 : ℝ) 50000 20000 0.05).mHWHM ∧
    0 < stddev Real.sqrt Real.log (polarBubble (100000 : ℝ) 50000 20000 0.05) ∧
    0 < stddev Real.sqrt Real.log (polarBubble (100000 : ℝ) 50000 20000 0.05) *
      stddev Real.sqrt Real.log (polarBubble (100000 : ℝ) 50000 20000 0.05) * 2 := by
  have h1 : 0 < (polarBubble (100000 : ℝ) 50000 20000 0.05).mHWHM := by
    norm_num [polarBubble]
  exact ⟨h1, (gaussian_divisors_pos _ h1).2.1, (gaussian_divisors_pos _ h1).2.2.1⟩

/-- C18: for a bubble with HWHM > 0 and a query point within the cutoff, at
clamped distance d, every affected quantity equals peak * 2^(-(d/HWHM)^2); at
d = 4*HWHM it equals peak / 65536. -/
theorem get3dProperties_closed_form (X : XMath ℝ) (s : Bubble ℝ)
    (r theta phi rElemCenter : ℝ) (hH : 0 < s.mHWHM)
    (hd : clampedDistance X Real.sqrt s r theta phi ≤ 4 * s.mHWHM) :
    OnAffected s (get3dProperties X Real.sqrt Real.log Real.exp s r theta phi rElemCenter)
      (fun v => v = s.mMax *
        (2 : ℝ) ^ (-(clampedDistance X Real.sqrt s r theta phi / s.mHWHM) ^ 2)) ∧
    (clampedDistance X Real.sqrt s r theta phi = 4 * s.mHWHM →
      OnAffected s (get3dProperties X Real.sqrt Real.log Real.exp s r theta phi rElemCenter)
        (fun v => v = s.mMax / 65536)) := by
  constructor
  · apply onAffected_of_le X _ _ _ s r theta phi rElemCenter _ hd
    rw [gaussian_real s _ hH, Real.rpow_def_of_pos (by norm_num)]
    congr 2
    field_simp
    ring
  · intro hc
    apply onAffected_of_le X _ _ _ s r theta phi rElemCenter _ hd
    rw [hc]
    exact gaussian_cutoff s hH

/-- At clamped distance 80 km = 4*HWHM the peak 0.05 leaves 0.05/65536. -/
theorem get3dProperties_closed_form_witness :
    0 < (polarBubble (100000 : ℝ) 50000 20000 0.05).mHWHM ∧
    clampedDistance (sphericalXMath Real.sin Real.cos Real.pi) Real.sqrt (polarBubble 100000 50000 20000 0.05) 6141000 0 0 ≤
      4 * (polarBubble (100000 : ℝ) 50000 20000 0.05).mHWHM ∧
    (get3dProperties (sphericalXMath Real.sin Real.cos Real.pi) Real.sqrt Real.log Real.exp
      (polarBubble 100000 50000 20000 0.05) 6141000 0 0 6141000).drho = 0.05 / 65536 := by
  have h1 : 0 < (polarBubble (100000 : ℝ) 50000 20000 0.05).mHWHM := by
    norm_num [polarBubble]
  have h2 : clampedDistance (sphericalXMath Real.sin Real.cos Real.pi) Real.sqrt (polarBubble 100000 50000 20000 0.05) 6141000 0 0 =
      4 * (polarBubble (100000 : ℝ) 50000 20000 0.05).mHWHM := by
    rw [clampedDistance_polar]
    norm_num [polarBubble]
  exact ⟨h1, h2.le, ((get3dProperties_closed_form
    (sphericalXMath Real.sin Real.cos Real.pi) (polarBubble 100000 50000 20000 0.05)
    6141000 0 0 6141000 h1 h2.le).2 h2).2.2 rfl⟩

/-- C19: for a bubble with HWHM > 0 and every query point, each of the five
perturbations v satisfies |v| <= |peak| and v * peak >= 0. -/
theorem get3dProperties_bounded (X : XMath ℝ) (s : Bubble ℝ)
    (r theta phi rElemCenter : ℝ) (hH : 0 < s.mHWHM) :
    (get3dProperties X Real.sqrt Real.log Real.exp s r theta phi rElemCenter).All
      (fun v => |v| ≤ |s.mMax| ∧ 0 ≤ v * s.mMax) := by
  have hz : |(0 : ℝ)| ≤ |s.mMax| ∧ (0 : ℝ) ≤ 0 * s.mMax := by simp
  rcases lt_or_le (4 * s.mHWHM) (clampedDistance X Real.sqrt s r theta phi) with h | h
  · rw [get3dProperties_of_gt X _ _ _ s r theta phi rElemCenter h]
    exact ⟨hz, hz, hz, hz, hz⟩
  · obtain ⟨e, he0, he1, hg⟩ :=
      gaussian_factor s (clampedDistance X Real.sqrt s r theta phi) hH
    have hv : |gaussian Real.sqrt Real.log Real.exp s
          (clampedDistance X Real.sqrt s r theta phi)| ≤ |s.mMax| ∧
        0 ≤ gaussian Real.sqrt Real.log Real.exp s
          (clampedDistance X Real.sqrt s r theta phi) * s.mMax := by
      rw [hg, abs_mul, abs_of_pos he0]
      constructor
      · exact mul_le_of_le_one_right (abs_nonneg _) he1
      · have := mul_nonneg (mul_self_nonneg s.mMax) he0.le
        linarith [this, mul_comm (s.mMax * e) s.mMax, mul_assoc s.mMax s.mMax e,
          mul_assoc s.mMax e s.mMax, mul_comm e s.mMax]
    rw [get3dProperties_of_le X _ _ _ s r theta phi rElemCenter h]
    unfold Perturbation.All
    dsimp only
    refine ⟨?_, ?_, ?_, ?_, ?_⟩ <;> split_ifs <;> first | exact hv | exact hz

/-- With the peak -0.05 the value 70 km from the centre lies between the peak
and zero. -/
theorem get3dProperties_bounded_witness :
    0 < (polarBubble (100000 : ℝ) 50000 20000 (-0.05)).mHWHM ∧
    |(get3dProperties (sphericalXMath Real.sin Real.cos Real.pi) Real.sqrt Real.log Real.exp
      (polarBubble 100000 50000 20000 (-0.05)) 6201000 0 0 6201000).dvsv| ≤ |(-0.05 : ℝ)| ∧
    0 ≤ (get3dProperties (sphericalXMath Real.sin Real.cos Real.pi) Real.sqrt Real.log Real.exp
      (polarBubble 100000 50000 20000 (-0.05)) 6201000 0 0 6201000).dvsv * (-0.05 : ℝ) := by
  have h1 : 0 < (polarBubble (100000 : ℝ) 50000 20000 (-0.05)).mHWHM := by
    norm_num [polarBubble]
  exact ⟨h1, (get3dProperties_bounded (sphericalXMath Real.sin Real.cos Real.pi)
    (polarBubble 100000 50000 20000 (-0.05)) 6201000 0 0 6201000 h1).2.2.1⟩

/-- A call 250 km from the centre of the bubble under the north pole, with the
output variables holding 7 before: it returns false, leaves zeros in the output
variables and leaves the object as it was. -/
theorem get3dProperties_pure_witness :
    (get3dPropertiesM (sphericalXMath Real.sin Real.cos Real.pi) Real.sqrt Real.log Real.exp
      6021000 0 0 6021000).run (polarBubble 100000 50000 20000 0.05, ⟨7, 7, 7, 7, 7⟩) =
      (false, (polarBubble 100000 50000 20000 0.05, ⟨0, 0, 0, 0, 0⟩)) := by
  have h := (get3dProperties_pure (sphericalXMath Real.sin Real.cos Real.pi) Real.sqrt
    Real.log Real.exp (polarBubble 100000 50000 20000 0.05) 6021000 0 0 6021000 0
    ⟨7, 7, 7, 7, 7⟩ ⟨7, 7, 7, 7, 7⟩).2.2.1
  rw [get3dProperties_of_gt _ _ _ _ _ _ _ _ _
    (by rw [clampedDistance_polar]; norm_num [polarBubble])] at h
  exact h

end RealTheorems

end Volumetric3D_bubble

namespace Element

variable {PointPtr GradientPtr PRTPtr : Type} {nPntElem : Nat}

/-- C13: `getDomainTag` after `setDomainTag(t)` returns t, and `setDomainTag`
changes neither `getMaxNr`, nor `getPoint(i)` for any index i, nor any member
other than the tag. -/
theorem getDomainTag_setDomainTag (e : Element PointPtr GradientPtr PRTPtr nPntElem)
    (t : Int) :
    (e.setDomainTag t).getDomainTag = t ∧
    (e.setDomainTag t).getMaxNr = e.getMaxNr ∧
    (∀ index : Int, (e.setDomainTag t).getPoint index = e.getPoint index) ∧
    (e.setDomainTag t).mMaxNu = e.mMaxNu ∧
    (e.setDomainTag t).mPoints = e.mPoints ∧
    (e.setDomainTag t).mGradient = e.mGradient ∧
    (e.setDomainTag t).mPRT = e.mPRT ∧
    (e.setDomainTag t).mHasPRT = e.mHasPRT :=
  ⟨rfl, rfl, fun _ => rfl, rfl, rfl, rfl, rfl, rfl⟩

end Element
